import Mathlib

/-!
Shallow embedding of the Shortcut Provisioning & Migration Engine exercised by
`install_shortcut_unittest.cc`.  The engine itself (`installer::CreateOrUpdateShortcuts`,
`installer::UpdatePerUserShortcutsInLocation`,
`installer::EscapeXmlAttributeValueInSingleQuotes`) lives in `chrome/installer/setup/install.cc`,
which is not part of the examined sources; each such operation is modelled from the
specification, with its behaviour pinned by the unit tests that are part of the sources.
-/

namespace Installer

/-- Windows path in the model: the list of path components obtained by splitting
the path on separators.  The tests express every path this way (relative to a
temporary directory). -/
abbrev WinPath := List String

/-- Strict directory containment, as `base::FilePath::IsParent`: `base` is a proper
ancestor directory of `p` (component-wise prefix, with `p` strictly longer). -/
def isParentOf : WinPath → WinPath → Bool
  | [], [] => false
  | [], _ :: _ => true
  | _ :: _, [] => false
  | a :: as, b :: bs => a == b && isParentOf as bs

/-- Two directories are comparable when neither diverges from the other within
their common length; two parents of the same path are always comparable. -/
def comparableDirs : WinPath → WinPath → Bool
  | [], _ => true
  | _, [] => true
  | a :: as, b :: bs => a == b && comparableDirs as bs

/-- Release channel of an install root ("variant tag"). -/
inductive Variant
  | stable
  | canary
deriving DecidableEq

/-- Scope of an install root: per-user or machine-wide. -/
inductive InstallScope
  | user
  | system
deriving DecidableEq

/-- Modelled from the spec: an InstallRoot is "a (variant tag, scope tag, base
directory) triple identifying a recognized install tree". -/
structure InstallRoot where
  variant : Variant
  scope : InstallScope
  base : WinPath
deriving DecidableEq

/-- The user-level stable-channel install root used by the tests
(`Users\x\AppData\Local\Google\Chrome`). -/
def userStableRoot : InstallRoot :=
  { variant := .stable, scope := .user,
    base := ["Users", "x", "AppData", "Local", "Google", "Chrome"] }

/-- The user-level canary-channel install root used by the tests
(`Users\x\AppData\Local\Google\Chrome SxS`). -/
def userCanaryRoot : InstallRoot :=
  { variant := .canary, scope := .user,
    base := ["Users", "x", "AppData", "Local", "Google", "Chrome SxS"] }

/-- The system-level stable-channel install root used by the tests
(`Program Files (x86)\Google\Chrome`). -/
def systemStableRoot : InstallRoot :=
  { variant := .stable, scope := .system,
    base := ["Program Files (x86)", "Google", "Chrome"] }

/-- The fixed set of recognized install roots exercised by the tests. -/
def kKnownRoots : List InstallRoot := [userStableRoot, userCanaryRoot, systemStableRoot]

/-- Modelled from the spec: the Path Classifier "tests containment against every
known InstallRoot's base directory, including each root's staging subdirectory";
"exactly one match is possible given the disjointness invariant; no match means
the path is foreign". -/
def classify (roots : List InstallRoot) (p : WinPath) : Option InstallRoot :=
  roots.find? (fun r => isParentOf r.base p)

/-- An existing shortcut file, as the batch retargeter sees it: its stored target
path and its optional stored icon path. -/
structure ShortcutFile where
  target : WinPath
  icon : Option WinPath
deriving DecidableEq

/-- Base name (last component) of a path. -/
def baseName (p : WinPath) : String := p.getLastD ""

/-- Whether a target's base name matches the serviced executable name filter:
the filter (e.g. `chrome.exe`) must be a suffix of the base name, so that both
`chrome.exe` and `new_chrome.exe` match while `something_else.exe` does not.
This reproduces the expectations-table of the retargeting unit tests. -/
def nameMatches (filter : String) (p : WinPath) : Bool :=
  (baseName p).toList.reverse.take filter.toList.length == filter.toList.reverse

/-- Modelled from the spec: the Batch Retargeter on one shortcut.  "Read its
stored target; ... fall back to its stored icon path as the classification
subject.  Classify that path.  If the classified root equals servicingRoot ...,
rewrite only the shortcut's target field to newTargetPath, leaving ... all other
properties untouched.  If classification yields no root, a different variant, or
a different scope, the shortcut is left completely untouched."  Containment is
tested against the serviced root's base directory `servicedDir`; per the unit
tests the target must additionally match the executable-name filter, and the
icon path is consulted as fallback subject whenever the target does not yield
the serviced root. -/
def retargetOne (servicedDir : WinPath) (filter : String) (newTarget : WinPath)
    (sc : ShortcutFile) : ShortcutFile :=
  if isParentOf servicedDir sc.target && nameMatches filter sc.target then
    { sc with target := newTarget }
  else
    match sc.icon with
    | some ic => if isParentOf servicedDir ic then { sc with target := newTarget } else sc
    | none => sc

/-- Modelled from the spec: `installer::UpdatePerUserShortcutsInLocation` (absent
from the examined sources) enumerates the existing shortcuts of a location and
retargets each one independently via the Batch Retargeter.  `servicedDir` is the
serviced install root's base directory (the call passes
`new_target_path.DirName().DirName()`), `filter` the serviced executable name
(`new_target_path.BaseName()`). -/
def UpdatePerUserShortcutsInLocation (servicedDir : WinPath) (filter : String)
    (newTarget : WinPath) (shortcuts : List ShortcutFile) : List ShortcutFile :=
  shortcuts.map (retargetOne servicedDir filter newTarget)

/-- Apostrophe character, written by code point. -/
def aposChar : Char := Char.ofNat 39

/-- Replacement performed on one character by the XML attribute escaper. -/
def escapeXmlChar (c : Char) : List Char :=
  if c = aposChar then ("&apos;").toList
  else if c = '&' then ("&amp;").toList
  else if c = '<' then ("&lt;").toList
  else [c]

/-- Modelled from the spec: the attribute-escaping auxiliary
`installer::EscapeXmlAttributeValueInSingleQuotes` (absent from the examined
sources) replaces apostrophes, ampersands and `<` by their XML entities and
leaves every other character, double quotes and `>` included, unchanged. -/
def EscapeXmlAttributeValueInSingleQuotes (s : String) : String :=
  String.mk (s.toList.flatMap escapeXmlChar)

/-- The apostrophe as a one-character string. -/
def apos : String := String.mk [aposChar]

/-- The input of the `EscapeCrazyValue` unit test. -/
def crazyValue : String :=
  "This has " ++ apos ++ "crazy" ++ apos ++ " \"chars\" && < and > signs."

/-- The expected output of the `EscapeCrazyValue` unit test. -/
def crazyValueEscaped : String :=
  "This has &apos;crazy&apos; \"chars\" &amp;&amp; &lt; and > signs."

/-- The input of the `DontEscapeNormalValue` unit test. -/
def normalValue : String := "Google Chrome"

/-- Install level requested by the caller, as `installer::InstallShortcutLevel`. -/
inductive InstallShortcutLevel
  | CURRENT_USER
  | ALL_USERS
deriving DecidableEq

/-- Shortcut operation requested by the caller, as
`installer::InstallShortcutOperation`. -/
inductive InstallShortcutOperation
  | INSTALL_SHORTCUT_CREATE_ALL
  | INSTALL_SHORTCUT_CREATE_EACH_IF_NO_SYSTEM_LEVEL
  | INSTALL_SHORTCUT_REPLACE_EXISTING
deriving DecidableEq

/-- Opt-out preference flags, as read from the master-preferences collaborator
(`kDoNotCreateDesktopShortcut`, `kDoNotCreateQuickLaunchShortcut`). -/
structure MasterPrefs where
  doNotCreateDesktopShortcut : Bool
  doNotCreateQuickLaunchShortcut : Bool
deriving DecidableEq

/-- Properties stored in a shortcut, as `base::win::ShortcutProperties`: target
path, optional (icon path, icon index), optional app id and description, and
the dual-mode flag. -/
structure ShortcutProps where
  target : WinPath
  icon : Option (WinPath × Nat)
  appId : Option String
  description : Option String
  dualMode : Bool
deriving DecidableEq

/-- Distribution/policy collaborator: supplies the policy-default app id,
description and icon index for the product. -/
structure Distribution where
  appId : String
  description : String
  iconIndex : Nat
deriving DecidableEq

/-- Modelled from the spec: the policy-default shortcut properties produced by
`Product::AddDefaultShortcutProperties` for a product executable — target is the
executable, icon points at the executable with the distribution's icon index,
app id and description come from the distribution, dual mode is off (the tests
expect `dual_mode = false` for every location). -/
def defaultShortcutProperties (dist : Distribution) (exe : WinPath) : ShortcutProps :=
  { target := exe
    icon := some (exe, dist.iconIndex)
    appId := some dist.appId
    description := some dist.description
    dualMode := false }

/-- State of every shortcut slot the engine can touch.  Each slot is the
distinguished shortcut file of one physical location (`none` when no shortcut
exists there).  Quick launch deliberately has only a per-user slot: the spec
states it has no system-wide variant. -/
structure ShortcutState where
  userDesktop : Option ShortcutProps
  systemDesktop : Option ShortcutProps
  userQuickLaunch : Option ShortcutProps
  userStartMenu : Option ShortcutProps
  systemStartMenu : Option ShortcutProps
  userStartMenuSubdir : Option ShortcutProps
  systemStartMenuSubdir : Option ShortcutProps
deriving DecidableEq

/-- Modelled from the spec: the Legacy Migrator, run for both levels on every
call.  "If a shortcut exists under START_MENU_SUBDIR for that level, it is
deleted there and an equivalent shortcut is ensured to exist at START_MENU_ROOT
with the same current canonical properties.  Idempotent: a second call with no
subdir shortcut present performs no mutation." -/
def migrateStartMenus (props : ShortcutProps) (st : ShortcutState) : ShortcutState :=
  { st with
    userStartMenuSubdir := none
    userStartMenu :=
      if st.userStartMenuSubdir.isSome then some (st.userStartMenu.getD props)
      else st.userStartMenu
    systemStartMenuSubdir := none
    systemStartMenu :=
      if st.systemStartMenuSubdir.isSome then some (st.systemStartMenu.getD props)
      else st.systemStartMenu }

/-- Modelled from the spec: the per-location action of the Operation Resolver.
CREATE_ALL: create-or-replace.  REPLACE_EXISTING: "update in place only if a
shortcut already exists there; it never creates a shortcut previously absent".
CREATE_EACH_IF_NO_SYSTEM_LEVEL: "create per-user copy iff no system-wide
shortcut exists at the equivalent location" (`sibling` is the system-wide slot
of the equivalent location, `none` for quick launch which has no system
variant). -/
def applyOp (op : InstallShortcutOperation) (props : ShortcutProps)
    (slot sibling : Option ShortcutProps) : Option ShortcutProps :=
  match op with
  | .INSTALL_SHORTCUT_CREATE_ALL => some props
  | .INSTALL_SHORTCUT_REPLACE_EXISTING => slot.map (fun _ => props)
  | .INSTALL_SHORTCUT_CREATE_EACH_IF_NO_SYSTEM_LEVEL =>
      if sibling.isSome then slot else some props

/-- Modelled from the spec: the operation-specific phase of the engine.  Desktop
and start menu target the requested level's directory; quick launch "is always
resolved per-user, even when provisioning at ALL_USERS level".  The desktop and
quick-launch opt-out flags "suppress only first-creation for the corresponding
location"; "they do not suppress REPLACE_EXISTING updates"; START_MENU_ROOT has
no opt-out. -/
def applyShortcutOps (prefs : MasterPrefs) (level : InstallShortcutLevel)
    (op : InstallShortcutOperation) (props : ShortcutProps)
    (st : ShortcutState) : ShortcutState :=
  { st with
    userDesktop :=
      if level = .CURRENT_USER ∧
          (prefs.doNotCreateDesktopShortcut = false ∨
            op = .INSTALL_SHORTCUT_REPLACE_EXISTING) then
        applyOp op props st.userDesktop st.systemDesktop
      else st.userDesktop
    systemDesktop :=
      if level = .ALL_USERS ∧
          (prefs.doNotCreateDesktopShortcut = false ∨
            op = .INSTALL_SHORTCUT_REPLACE_EXISTING) then
        applyOp op props st.systemDesktop st.systemDesktop
      else st.systemDesktop
    userQuickLaunch :=
      if prefs.doNotCreateQuickLaunchShortcut = false ∨
          op = .INSTALL_SHORTCUT_REPLACE_EXISTING then
        applyOp op props st.userQuickLaunch none
      else st.userQuickLaunch
    userStartMenu :=
      if level = .CURRENT_USER then applyOp op props st.userStartMenu st.systemStartMenu
      else st.userStartMenu
    systemStartMenu :=
      if level = .ALL_USERS then applyOp op props st.systemStartMenu st.systemStartMenu
      else st.systemStartMenu }

/-- Modelled from the spec: `installer::CreateOrUpdateShortcuts` (absent from the
examined sources).  "ProvisionShortcuts(target, context, level, operation)
always runs the Legacy Migrator first, then asks the Operation Resolver for the
location/action set, then invokes the Link Store per location." -/
def CreateOrUpdateShortcuts (dist : Distribution) (exe : WinPath)
    (prefs : MasterPrefs) (level : InstallShortcutLevel)
    (op : InstallShortcutOperation) (st : ShortcutState) : ShortcutState :=
  let props := defaultShortcutProperties dist exe
  applyShortcutOps prefs level op props (migrateStartMenus props st)

/-- Start-menu root slot of a level. -/
def startMenuRootAt : InstallShortcutLevel → ShortcutState → Option ShortcutProps
  | .CURRENT_USER, st => st.userStartMenu
  | .ALL_USERS, st => st.systemStartMenu

/-- Deprecated start-menu subdirectory slot of a level. -/
def startMenuSubdirAt : InstallShortcutLevel → ShortcutState → Option ShortcutProps
  | .CURRENT_USER, st => st.userStartMenuSubdir
  | .ALL_USERS, st => st.systemStartMenuSubdir

/-- Sample distribution used to instantiate the theorems on concrete inputs. -/
def testDistribution : Distribution :=
  { appId := "Chromium", description := "Browse the web", iconIndex := 0 }

/-- Sample product executable path (`chrome.exe` in the temporary directory). -/
def kChromeExePath : WinPath := ["temp", "chrome.exe"]

/-- Preferences with no opt-out set, as `GetFakeMasterPrefs(false, false)`. -/
def defaultTestPrefs : MasterPrefs :=
  { doNotCreateDesktopShortcut := false, doNotCreateQuickLaunchShortcut := false }

/-- Shortcut-slot state with no shortcut anywhere. -/
def emptyState : ShortcutState :=
  { userDesktop := none, systemDesktop := none, userQuickLaunch := none
    userStartMenu := none, systemStartMenu := none
    userStartMenuSubdir := none, systemStartMenuSubdir := none }

/-- Dummy shortcut properties, as the `dummy_properties` fixture of the tests. -/
def dummyShortcutProps : ShortcutProps :=
  { target := ["dummy"], icon := none, appId := some "El.Dummiest"
    description := none, dualMode := false }

/-- State with only a user-level deprecated start-menu-subdir shortcut present. -/
def seededSubdirState : ShortcutState :=
  { emptyState with userStartMenuSubdir := some dummyShortcutProps }

/-- State with only the system-level desktop shortcut present. -/
def someSystemState : ShortcutState :=
  { emptyState with systemDesktop := some dummyShortcutProps }

/-- State with only a dummy user-level desktop shortcut present. -/
def seededDesktopState : ShortcutState :=
  { emptyState with userDesktop := some dummyShortcutProps }

/-- Shortcut whose target is the canary install tree's `Application\chrome.exe`,
without an icon, as in the retargeting tests. -/
def canaryShortcut : ShortcutFile :=
  { target := userCanaryRoot.base ++ ["Application", "chrome.exe"], icon := none }

/-- Shortcut targeting an unrelated executable outside every install tree. -/
def unrelatedShortcut : ShortcutFile :=
  { target := ["something_else.exe"], icon := none }

/-- Shortcut whose target is `something_else.exe` under the user-level stable
root's `Application` directory, without an icon. -/
def somethingElseShortcut : ShortcutFile :=
  { target := userStableRoot.base ++ ["Application", "something_else.exe"], icon := none }

/-- Shortcut with the dummy target and an icon inside the user-level stable
install tree, as in the icon-fallback rows of the retargeting tests. -/
def dummyIconShortcut : ShortcutFile :=
  { target := ["dummy.exe"],
    icon := some (userStableRoot.base ++ ["Application", "chrome.exe"]) }

/-- New target passed when servicing the user-level stable channel. -/
def newChromeTarget : WinPath := userStableRoot.base ++ ["Application", "chrome.exe"]

/-- New target passed when servicing the user-level canary channel. -/
def newCanaryTarget : WinPath := userCanaryRoot.base ++ ["Application", "chrome.exe"]

theorem isParentOf_comparable : ∀ (p b1 b2 : WinPath),
    isParentOf b1 p = true → isParentOf b2 p = true → comparableDirs b1 b2 = true
  | _, [], b2, _, _ => by cases b2 <;> simp [comparableDirs]
  | _, _ :: _, [], _, _ => by simp [comparableDirs]
  | [], _ :: _, _ :: _, h1, _ => by simp [isParentOf] at h1
  | c :: cs, a :: as, b :: bs, h1, h2 => by
      simp only [isParentOf, Bool.and_eq_true, beq_iff_eq] at h1 h2
      simp only [comparableDirs, Bool.and_eq_true, beq_iff_eq]
      exact ⟨h1.1.trans h2.1.symm, isParentOf_comparable cs as bs h1.2 h2.2⟩

theorem classify_known_of_isParent (p : WinPath) (r : InstallRoot)
    (hr : r ∈ kKnownRoots) (h : isParentOf r.base p = true) :
    classify kKnownRoots p = some r := by
  have excl : ∀ r1 r2 : InstallRoot, r1 ∈ kKnownRoots → r2 ∈ kKnownRoots → r1 ≠ r2 →
      isParentOf r1.base p = true → isParentOf r2.base p = true → False := by
    intro r1 r2 h1 h2 hne hp1 hp2
    have hc := isParentOf_comparable p r1.base r2.base hp1 hp2
    have : ∀ s1 ∈ kKnownRoots, ∀ s2 ∈ kKnownRoots, s1 ≠ s2 →
        comparableDirs s1.base s2.base = false := by decide
    rw [this r1 h1 r2 h2 hne] at hc
    exact Bool.false_ne_true hc
  simp only [kKnownRoots, List.mem_cons, List.mem_singleton, List.not_mem_nil, or_false] at hr
  rcases hr with rfl | rfl | rfl
  · simp [classify, kKnownRoots, List.find?, h]
  · have h1 : isParentOf userStableRoot.base p = false := by
      by_contra hc
      rw [Bool.not_eq_false] at hc
      exact excl userStableRoot userCanaryRoot (by decide) (by decide) (by decide) hc h
    simp [classify, kKnownRoots, List.find?, h, h1]
  · have h1 : isParentOf userStableRoot.base p = false := by
      by_contra hc
      rw [Bool.not_eq_false] at hc
      exact excl userStableRoot systemStableRoot (by decide) (by decide) (by decide) hc h
    have h2 : isParentOf userCanaryRoot.base p = false := by
      by_contra hc
      rw [Bool.not_eq_false] at hc
      exact excl userCanaryRoot systemStableRoot (by decide) (by decide) (by decide) hc h
    simp [classify, kKnownRoots, List.find?, h, h1, h2]

theorem escapeXmlChar_id_of_plain (c : Char)
    (h : c ≠ aposChar ∧ c ≠ '&' ∧ c ≠ '<') : escapeXmlChar c = [c] := by
  simp [escapeXmlChar, h.1, h.2.1, h.2.2]

/-- C8: the XML attribute-escaping auxiliary replaces every apostrophe with
`&apos;`, every ampersand with `&amp;` and every `<` with `&lt;` while leaving
double quotes and `>` unchanged: the crazy test value escapes exactly as the
unit test expects, `Google Chrome` is returned unchanged, and any string
containing none of the three escaped characters is returned unchanged. -/
theorem claim_C8 :
    EscapeXmlAttributeValueInSingleQuotes crazyValue = crazyValueEscaped ∧
    EscapeXmlAttributeValueInSingleQuotes normalValue = normalValue ∧
    ∀ s : String, (∀ c ∈ s.toList, c ≠ aposChar ∧ c ≠ '&' ∧ c ≠ '<') →
      EscapeXmlAttributeValueInSingleQuotes s = s := by
  refine ⟨by decide, by decide, ?_⟩
  intro s hs
  have hflat : ∀ l : List Char, (∀ c ∈ l, c ≠ aposChar ∧ c ≠ '&' ∧ c ≠ '<') →
      l.flatMap escapeXmlChar = l := by
    intro l hl
    induction l with
    | nil => simp
    | cons c cs ih =>
        rw [List.flatMap_cons, escapeXmlChar_id_of_plain c (hl c (by simp)),
          ih (fun d hd => hl d (by simp [hd]))]
        simp
  rw [EscapeXmlAttributeValueInSingleQuotes, hflat s.toList hs]
  cases s
  rfl

/-- Witness for C8: a concrete plain string is unchanged by escaping. -/
theorem claim_C8_witness :
    EscapeXmlAttributeValueInSingleQuotes "Chromium" = "Chromium" :=
  claim_C8.2.2 "Chromium" (by decide)

/-- C2: a shortcut whose classification subject (stored target, with the stored
icon path as fallback subject) classifies to no recognized install root or to a
root other than the serviced one is left completely unchanged by the batch
retargeter; in particular a canary-tree shortcut is unchanged when servicing the
user-level stable channel but rewritten when servicing the canary channel at the
same scope, and a shortcut targeting an unrelated executable is never rewritten
under any servicing context. -/
theorem claim_C2 :
    (∀ serviced, serviced ∈ kKnownRoots →
      ∀ (filter : String) (newTarget : WinPath) (sc : ShortcutFile),
        classify kKnownRoots sc.target ≠ some serviced →
        (∀ ic, sc.icon = some ic → classify kKnownRoots ic ≠ some serviced) →
        UpdatePerUserShortcutsInLocation serviced.base filter newTarget [sc] = [sc]) ∧
    UpdatePerUserShortcutsInLocation userStableRoot.base "chrome.exe" newChromeTarget
        [canaryShortcut] = [canaryShortcut] ∧
    UpdatePerUserShortcutsInLocation userCanaryRoot.base "chrome.exe" newCanaryTarget
        [canaryShortcut] = [{ canaryShortcut with target := newCanaryTarget }] ∧
    ∀ serviced, serviced ∈ kKnownRoots → ∀ (filter : String) (newTarget : WinPath),
      UpdatePerUserShortcutsInLocation serviced.base filter newTarget
        [unrelatedShortcut] = [unrelatedShortcut] := by
  refine ⟨?_, by decide, by decide, ?_⟩
  · intro serviced hs filter newTarget sc ht hi
    have hpt : isParentOf serviced.base sc.target = false := by
      by_contra hc
      rw [Bool.not_eq_false] at hc
      exact ht (classify_known_of_isParent sc.target serviced hs hc)
    rcases hicon : sc.icon with _ | ic
    · simp [UpdatePerUserShortcutsInLocation, retargetOne, hpt, hicon]
    · have hpi : isParentOf serviced.base ic = false := by
        by_contra hc
        rw [Bool.not_eq_false] at hc
        exact hi ic hicon (classify_known_of_isParent ic serviced hs hc)
      simp [UpdatePerUserShortcutsInLocation, retargetOne, hpt, hicon, hpi]
  · intro serviced hs filter newTarget
    have hfp : isParentOf serviced.base ["something_else.exe"] = false := by
      have : ∀ r ∈ kKnownRoots, isParentOf r.base ["something_else.exe"] = false := by
        decide
      exact this serviced hs
    simp [UpdatePerUserShortcutsInLocation, retargetOne, hfp, unrelatedShortcut]

/-- Witness for C2: the canary-tree shortcut is untouched when servicing the
user-level stable channel. -/
theorem claim_C2_witness :
    UpdatePerUserShortcutsInLocation userStableRoot.base "new_chrome.exe"
      newChromeTarget [canaryShortcut] = [canaryShortcut] :=
  claim_C2.1 userStableRoot (by decide) "new_chrome.exe" newChromeTarget
    canaryShortcut (by decide) (by intro ic h; simp [canaryShortcut] at h)

/-- C9: classification to the serviced root is not sufficient for retargeting:
a shortcut whose target lies inside the serviced install root but whose base
name does not match the serviced executable names is left unchanged (given that
its stored icon does not independently trigger the icon-path fallback, as in
the test rows, which carry no icon). -/
theorem claim_C9 (serviced : InstallRoot) (filter : String) (newTarget : WinPath)
    (sc : ShortcutFile)
    (hin : isParentOf serviced.base sc.target = true)
    (hname : nameMatches filter sc.target = false)
    (hicon : ∀ ic, sc.icon = some ic → isParentOf serviced.base ic = false) :
    UpdatePerUserShortcutsInLocation serviced.base filter newTarget [sc] = [sc] := by
  rcases hic : sc.icon with _ | ic
  · simp [UpdatePerUserShortcutsInLocation, retargetOne, hname, hic]
  · simp [UpdatePerUserShortcutsInLocation, retargetOne, hname, hic, hicon ic hic]

/-- Witness for C9: `something_else.exe` under the serviced root's Application
directory is not retargeted when servicing the user-level stable channel. -/
theorem claim_C9_witness :
    UpdatePerUserShortcutsInLocation userStableRoot.base "chrome.exe"
      newChromeTarget [somethingElseShortcut] = [somethingElseShortcut] :=
  claim_C9 userStableRoot "chrome.exe" newChromeTarget somethingElseShortcut
    (by decide) (by decide) (by intro ic h; simp [somethingElseShortcut] at h)

/-- C10: the icon-path fallback applies even when the shortcut's target is a
non-empty path: a shortcut whose target does not classify to the serviced root
but whose stored icon path lies under the serviced root has its target
rewritten to the new target path. -/
theorem claim_C10 (serviced : InstallRoot) (hs : serviced ∈ kKnownRoots)
    (filter : String) (newTarget : WinPath) (sc : ShortcutFile) (ic : WinPath)
    (ht : classify kKnownRoots sc.target ≠ some serviced)
    (hicon : sc.icon = some ic)
    (hic : isParentOf serviced.base ic = true) :
    UpdatePerUserShortcutsInLocation serviced.base filter newTarget [sc]
      = [{ sc with target := newTarget }] := by
  have hpt : isParentOf serviced.base sc.target = false := by
    by_contra hc
    rw [Bool.not_eq_false] at hc
    exact ht (classify_known_of_isParent sc.target serviced hs hc)
  simp [UpdatePerUserShortcutsInLocation, retargetOne, hpt, hicon, hic]

/-- Witness for C10: the `dummy.exe` shortcut with an icon inside the user-level
stable tree is retargeted when servicing the user-level stable channel. -/
theorem claim_C10_witness :
    UpdatePerUserShortcutsInLocation userStableRoot.base "chrome.exe"
      newChromeTarget [dummyIconShortcut]
      = [{ dummyIconShortcut with target := newChromeTarget }] :=
  claim_C10 userStableRoot (by decide) "chrome.exe" newChromeTarget
    dummyIconShortcut (userStableRoot.base ++ ["Application", "chrome.exe"])
    (by decide) rfl (by decide)


/-- C1: for every operation and every level, if a deprecated start-menu-subdir
shortcut exists for that level and no flat start-menu-root shortcut exists,
then after `CreateOrUpdateShortcuts` the subdirectory shortcut no longer exists
and a flat shortcut exists at the start-menu root, unconditionally. -/
theorem claim_C1 (dist : Distribution) (exe : WinPath) (prefs : MasterPrefs)
    (op : InstallShortcutOperation) (level : InstallShortcutLevel)
    (st : ShortcutState)
    (hsub : (startMenuSubdirAt level st).isSome = true)
    (hroot : startMenuRootAt level st = none) :
    startMenuSubdirAt level (CreateOrUpdateShortcuts dist exe prefs level op st) = none ∧
    (startMenuRootAt level (CreateOrUpdateShortcuts dist exe prefs level op st)).isSome
      = true := by
  cases level with
  | CURRENT_USER =>
      simp only [startMenuSubdirAt, startMenuRootAt] at hsub hroot ⊢
      obtain ⟨v, hv⟩ := Option.isSome_iff_exists.mp hsub
      cases op <;>
        simp [CreateOrUpdateShortcuts, applyShortcutOps, migrateStartMenus, applyOp,
          hv, apply_ite Option.isSome]
  | ALL_USERS =>
      simp only [startMenuSubdirAt, startMenuRootAt] at hsub hroot ⊢
      obtain ⟨v, hv⟩ := Option.isSome_iff_exists.mp hsub
      cases op <;>
        simp [CreateOrUpdateShortcuts, applyShortcutOps, migrateStartMenus, applyOp,
          hv, apply_ite Option.isSome]

/-- Witness for C1: CREATE_ALL at CURRENT_USER on the state holding only a
user-level subdirectory shortcut migrates it to the start-menu root. -/
theorem claim_C1_witness :
    startMenuSubdirAt InstallShortcutLevel.CURRENT_USER
        (CreateOrUpdateShortcuts testDistribution kChromeExePath defaultTestPrefs
          InstallShortcutLevel.CURRENT_USER
          InstallShortcutOperation.INSTALL_SHORTCUT_CREATE_ALL seededSubdirState) = none ∧
    (startMenuRootAt InstallShortcutLevel.CURRENT_USER
        (CreateOrUpdateShortcuts testDistribution kChromeExePath defaultTestPrefs
          InstallShortcutLevel.CURRENT_USER
          InstallShortcutOperation.INSTALL_SHORTCUT_CREATE_ALL seededSubdirState)).isSome
      = true :=
  claim_C1 testDistribution kChromeExePath defaultTestPrefs
    InstallShortcutOperation.INSTALL_SHORTCUT_CREATE_ALL
    InstallShortcutLevel.CURRENT_USER seededSubdirState (by decide) (by decide)

/-- C3: CREATE_ALL at CURRENT_USER with no opt-out set provisions the per-user
desktop, quick-launch and start-menu-root shortcuts with the policy-default
properties (target, app id, description, icon), and no start-menu-subdir
shortcut exists afterwards. -/
theorem claim_C3 (dist : Distribution) (exe : WinPath) (prefs : MasterPrefs)
    (st : ShortcutState)
    (hd : prefs.doNotCreateDesktopShortcut = false)
    (hq : prefs.doNotCreateQuickLaunchShortcut = false) :
    (CreateOrUpdateShortcuts dist exe prefs InstallShortcutLevel.CURRENT_USER
        InstallShortcutOperation.INSTALL_SHORTCUT_CREATE_ALL st).userDesktop
      = some (defaultShortcutProperties dist exe) ∧
    (CreateOrUpdateShortcuts dist exe prefs InstallShortcutLevel.CURRENT_USER
        InstallShortcutOperation.INSTALL_SHORTCUT_CREATE_ALL st).userQuickLaunch
      = some (defaultShortcutProperties dist exe) ∧
    (CreateOrUpdateShortcuts dist exe prefs InstallShortcutLevel.CURRENT_USER
        InstallShortcutOperation.INSTALL_SHORTCUT_CREATE_ALL st).userStartMenu
      = some (defaultShortcutProperties dist exe) ∧
    (CreateOrUpdateShortcuts dist exe prefs InstallShortcutLevel.CURRENT_USER
        InstallShortcutOperation.INSTALL_SHORTCUT_CREATE_ALL st).userStartMenuSubdir
      = none ∧
    (defaultShortcutProperties dist exe).target = exe ∧
    (defaultShortcutProperties dist exe).appId = some dist.appId ∧
    (defaultShortcutProperties dist exe).description = some dist.description ∧
    (defaultShortcutProperties dist exe).icon = some (exe, dist.iconIndex) := by
  simp [CreateOrUpdateShortcuts, applyShortcutOps, migrateStartMenus, applyOp,
    defaultShortcutProperties, hd, hq]

/-- Witness for C3: instantiated on the concrete test fixture and the empty
state. -/
theorem claim_C3_witness :
    (CreateOrUpdateShortcuts testDistribution kChromeExePath defaultTestPrefs
        InstallShortcutLevel.CURRENT_USER
        InstallShortcutOperation.INSTALL_SHORTCUT_CREATE_ALL emptyState).userDesktop
      = some (defaultShortcutProperties testDistribution kChromeExePath) ∧
    (CreateOrUpdateShortcuts testDistribution kChromeExePath defaultTestPrefs
        InstallShortcutLevel.CURRENT_USER
        InstallShortcutOperation.INSTALL_SHORTCUT_CREATE_ALL emptyState).userQuickLaunch
      = some (defaultShortcutProperties testDistribution kChromeExePath) ∧
    (CreateOrUpdateShortcuts testDistribution kChromeExePath defaultTestPrefs
        InstallShortcutLevel.CURRENT_USER
        InstallShortcutOperation.INSTALL_SHORTCUT_CREATE_ALL emptyState).userStartMenu
      = some (defaultShortcutProperties testDistribution kChromeExePath) ∧
    (CreateOrUpdateShortcuts testDistribution kChromeExePath defaultTestPrefs
        InstallShortcutLevel.CURRENT_USER
        InstallShortcutOperation.INSTALL_SHORTCUT_CREATE_ALL emptyState).userStartMenuSubdir
      = none ∧
    (defaultShortcutProperties testDistribution kChromeExePath).target = kChromeExePath ∧
    (defaultShortcutProperties testDistribution kChromeExePath).appId
      = some testDistribution.appId ∧
    (defaultShortcutProperties testDistribution kChromeExePath).description
      = some testDistribution.description ∧
    (defaultShortcutProperties testDistribution kChromeExePath).icon
      = some (kChromeExePath, testDistribution.iconIndex) :=
  claim_C3 testDistribution kChromeExePath defaultTestPrefs emptyState rfl rfl

/-- C4 counterexample: with a deprecated start-menu-subdir shortcut present and
no start-menu-root shortcut, REPLACE_EXISTING does create a shortcut at the
previously-empty start-menu root (the unconditional migration), refuting
"locations without a shortcut before the call still have no shortcut after
it". -/
theorem claim_C4_counterexample :
    seededSubdirState.userStartMenu = none ∧
    (CreateOrUpdateShortcuts testDistribution kChromeExePath defaultTestPrefs
        InstallShortcutLevel.CURRENT_USER
        InstallShortcutOperation.INSTALL_SHORTCUT_REPLACE_EXISTING
        seededSubdirState).userStartMenu ≠ none := by decide

/-- C4 (amended): provided no deprecated start-menu-subdir shortcut exists at
either level, REPLACE_EXISTING updates in place only where a shortcut already
exists — occupied serviced slots carry the canonical properties afterwards,
unserviced slots are unchanged, and every location empty before the call is
still empty after it. -/
theorem claim_C4_amended (dist : Distribution) (exe : WinPath) (prefs : MasterPrefs)
    (level : InstallShortcutLevel) (st : ShortcutState)
    (hu : st.userStartMenuSubdir = none) (hs : st.systemStartMenuSubdir = none) :
    (CreateOrUpdateShortcuts dist exe prefs level
        InstallShortcutOperation.INSTALL_SHORTCUT_REPLACE_EXISTING st).userDesktop
      = (if level = InstallShortcutLevel.CURRENT_USER then
          st.userDesktop.map (fun _ => defaultShortcutProperties dist exe)
        else st.userDesktop) ∧
    (CreateOrUpdateShortcuts dist exe prefs level
        InstallShortcutOperation.INSTALL_SHORTCUT_REPLACE_EXISTING st).systemDesktop
      = (if level = InstallShortcutLevel.ALL_USERS then
          st.systemDesktop.map (fun _ => defaultShortcutProperties dist exe)
        else st.systemDesktop) ∧
    (CreateOrUpdateShortcuts dist exe prefs level
        InstallShortcutOperation.INSTALL_SHORTCUT_REPLACE_EXISTING st).userQuickLaunch
      = st.userQuickLaunch.map (fun _ => defaultShortcutProperties dist exe) ∧
    (CreateOrUpdateShortcuts dist exe prefs level
        InstallShortcutOperation.INSTALL_SHORTCUT_REPLACE_EXISTING st).userStartMenu
      = (if level = InstallShortcutLevel.CURRENT_USER then
          st.userStartMenu.map (fun _ => defaultShortcutProperties dist exe)
        else st.userStartMenu) ∧
    (CreateOrUpdateShortcuts dist exe prefs level
        InstallShortcutOperation.INSTALL_SHORTCUT_REPLACE_EXISTING st).systemStartMenu
      = (if level = InstallShortcutLevel.ALL_USERS then
          st.systemStartMenu.map (fun _ => defaultShortcutProperties dist exe)
        else st.systemStartMenu) ∧
    (CreateOrUpdateShortcuts dist exe prefs level
        InstallShortcutOperation.INSTALL_SHORTCUT_REPLACE_EXISTING st).userStartMenuSubdir
      = none ∧
    (CreateOrUpdateShortcuts dist exe prefs level
        InstallShortcutOperation.INSTALL_SHORTCUT_REPLACE_EXISTING st).systemStartMenuSubdir
      = none := by
  cases level <;>
    simp [CreateOrUpdateShortcuts, applyShortcutOps, migrateStartMenus, applyOp, hu, hs]

/-- Witness for C4 (amended): REPLACE_EXISTING on the state holding only a
dummy user-desktop shortcut replaces it in place and creates nothing else. -/
theorem claim_C4_witness :
    (CreateOrUpdateShortcuts testDistribution kChromeExePath defaultTestPrefs
        InstallShortcutLevel.CURRENT_USER
        InstallShortcutOperation.INSTALL_SHORTCUT_REPLACE_EXISTING seededDesktopState).userDesktop
      = (if InstallShortcutLevel.CURRENT_USER = InstallShortcutLevel.CURRENT_USER then
          seededDesktopState.userDesktop.map
            (fun _ => defaultShortcutProperties testDistribution kChromeExePath)
        else seededDesktopState.userDesktop) ∧
    (CreateOrUpdateShortcuts testDistribution kChromeExePath defaultTestPrefs
        InstallShortcutLevel.CURRENT_USER
        InstallShortcutOperation.INSTALL_SHORTCUT_REPLACE_EXISTING seededDesktopState).systemDesktop
      = (if InstallShortcutLevel.CURRENT_USER = InstallShortcutLevel.ALL_USERS then
          seededDesktopState.systemDesktop.map
            (fun _ => defaultShortcutProperties testDistribution kChromeExePath)
        else seededDesktopState.systemDesktop) ∧
    (CreateOrUpdateShortcuts testDistribution kChromeExePath defaultTestPrefs
        InstallShortcutLevel.CURRENT_USER
        InstallShortcutOperation.INSTALL_SHORTCUT_REPLACE_EXISTING seededDesktopState).userQuickLaunch
      = seededDesktopState.userQuickLaunch.map
          (fun _ => defaultShortcutProperties testDistribution kChromeExePath) ∧
    (CreateOrUpdateShortcuts testDistribution kChromeExePath defaultTestPrefs
        InstallShortcutLevel.CURRENT_USER
        InstallShortcutOperation.INSTALL_SHORTCUT_REPLACE_EXISTING seededDesktopState).userStartMenu
      = (if InstallShortcutLevel.CURRENT_USER = InstallShortcutLevel.CURRENT_USER then
          seededDesktopState.userStartMenu.map
            (fun _ => defaultShortcutProperties testDistribution kChromeExePath)
        else seededDesktopState.userStartMenu) ∧
    (CreateOrUpdateShortcuts testDistribution kChromeExePath defaultTestPrefs
        InstallShortcutLevel.CURRENT_USER
        InstallShortcutOperation.INSTALL_SHORTCUT_REPLACE_EXISTING seededDesktopState).systemStartMenu
      = (if InstallShortcutLevel.CURRENT_USER = InstallShortcutLevel.ALL_USERS then
          seededDesktopState.systemStartMenu.map
            (fun _ => defaultShortcutProperties testDistribution kChromeExePath)
        else seededDesktopState.systemStartMenu) ∧
    (CreateOrUpdateShortcuts testDistribution kChromeExePath defaultTestPrefs
        InstallShortcutLevel.CURRENT_USER
        InstallShortcutOperation.INSTALL_SHORTCUT_REPLACE_EXISTING seededDesktopState).userStartMenuSubdir
      = none ∧
    (CreateOrUpdateShortcuts testDistribution kChromeExePath defaultTestPrefs
        InstallShortcutLevel.CURRENT_USER
        InstallShortcutOperation.INSTALL_SHORTCUT_REPLACE_EXISTING seededDesktopState).systemStartMenuSubdir
      = none :=
  claim_C4_amended testDistribution kChromeExePath defaultTestPrefs
    InstallShortcutLevel.CURRENT_USER seededDesktopState rfl rfl

/-- C5: under CREATE_EACH_IF_NO_SYSTEM_LEVEL at CURRENT_USER (no opt-out, user
slots initially empty, no deprecated subdir shortcut), a per-user desktop or
start-menu-root shortcut is created iff no system-wide shortcut exists at the
equivalent location, independently per location, while the per-user
quick-launch shortcut is created regardless. -/
theorem claim_C5 (dist : Distribution) (exe : WinPath) (prefs : MasterPrefs)
    (st : ShortcutState)
    (hd : prefs.doNotCreateDesktopShortcut = false)
    (hq : prefs.doNotCreateQuickLaunchShortcut = false)
    (h1 : st.userDesktop = none) (h2 : st.userQuickLaunch = none)
    (h3 : st.userStartMenu = none) (h4 : st.userStartMenuSubdir = none)
    (h5 : st.systemStartMenuSubdir = none) :
    (CreateOrUpdateShortcuts dist exe prefs InstallShortcutLevel.CURRENT_USER
        InstallShortcutOperation.INSTALL_SHORTCUT_CREATE_EACH_IF_NO_SYSTEM_LEVEL st).userDesktop
      = (if st.systemDesktop.isSome then none
        else some (defaultShortcutProperties dist exe)) ∧
    (CreateOrUpdateShortcuts dist exe prefs InstallShortcutLevel.CURRENT_USER
        InstallShortcutOperation.INSTALL_SHORTCUT_CREATE_EACH_IF_NO_SYSTEM_LEVEL st).userStartMenu
      = (if st.systemStartMenu.isSome then none
        else some (defaultShortcutProperties dist exe)) ∧
    (CreateOrUpdateShortcuts dist exe prefs InstallShortcutLevel.CURRENT_USER
        InstallShortcutOperation.INSTALL_SHORTCUT_CREATE_EACH_IF_NO_SYSTEM_LEVEL st).userQuickLaunch
      = some (defaultShortcutProperties dist exe) := by
  simp [CreateOrUpdateShortcuts, applyShortcutOps, migrateStartMenus, applyOp,
    hd, hq, h1, h2, h3, h4, h5]

/-- Witness for C5: with only a system-level desktop shortcut present, no
per-user desktop shortcut is created, but the per-user start-menu and
quick-launch shortcuts are. -/
theorem claim_C5_witness :
    (CreateOrUpdateShortcuts testDistribution kChromeExePath defaultTestPrefs
        InstallShortcutLevel.CURRENT_USER
        InstallShortcutOperation.INSTALL_SHORTCUT_CREATE_EACH_IF_NO_SYSTEM_LEVEL
        someSystemState).userDesktop
      = (if someSystemState.systemDesktop.isSome then none
        else some (defaultShortcutProperties testDistribution kChromeExePath)) ∧
    (CreateOrUpdateShortcuts testDistribution kChromeExePath defaultTestPrefs
        InstallShortcutLevel.CURRENT_USER
        InstallShortcutOperation.INSTALL_SHORTCUT_CREATE_EACH_IF_NO_SYSTEM_LEVEL
        someSystemState).userStartMenu
      = (if someSystemState.systemStartMenu.isSome then none
        else some (defaultShortcutProperties testDistribution kChromeExePath)) ∧
    (CreateOrUpdateShortcuts testDistribution kChromeExePath defaultTestPrefs
        InstallShortcutLevel.CURRENT_USER
        InstallShortcutOperation.INSTALL_SHORTCUT_CREATE_EACH_IF_NO_SYSTEM_LEVEL
        someSystemState).userQuickLaunch
      = some (defaultShortcutProperties testDistribution kChromeExePath) :=
  claim_C5 testDistribution kChromeExePath defaultTestPrefs someSystemState
    rfl rfl rfl rfl rfl rfl rfl

/-- C6: the quick-launch shortcut is always provisioned per-user: CREATE_ALL at
ALL_USERS creates the desktop and start-menu shortcuts in the system-wide
slots and the quick-launch shortcut in the current user's slot, leaving the
per-user desktop slot untouched. -/
theorem claim_C6 (dist : Distribution) (exe : WinPath) (prefs : MasterPrefs)
    (st : ShortcutState)
    (hd : prefs.doNotCreateDesktopShortcut = false)
    (hq : prefs.doNotCreateQuickLaunchShortcut = false) :
    (CreateOrUpdateShortcuts dist exe prefs InstallShortcutLevel.ALL_USERS
        InstallShortcutOperation.INSTALL_SHORTCUT_CREATE_ALL st).systemDesktop
      = some (defaultShortcutProperties dist exe) ∧
    (CreateOrUpdateShortcuts dist exe prefs InstallShortcutLevel.ALL_USERS
        InstallShortcutOperation.INSTALL_SHORTCUT_CREATE_ALL st).systemStartMenu
      = some (defaultShortcutProperties dist exe) ∧
    (CreateOrUpdateShortcuts dist exe prefs InstallShortcutLevel.ALL_USERS
        InstallShortcutOperation.INSTALL_SHORTCUT_CREATE_ALL st).userQuickLaunch
      = some (defaultShortcutProperties dist exe) ∧
    (CreateOrUpdateShortcuts dist exe prefs InstallShortcutLevel.ALL_USERS
        InstallShortcutOperation.INSTALL_SHORTCUT_CREATE_ALL st).userDesktop
      = st.userDesktop := by
  simp [CreateOrUpdateShortcuts, applyShortcutOps, migrateStartMenus, applyOp, hd, hq]

/-- Witness for C6: instantiated on the concrete test fixture and the empty
state. -/
theorem claim_C6_witness :
    (CreateOrUpdateShortcuts testDistribution kChromeExePath defaultTestPrefs
        InstallShortcutLevel.ALL_USERS
        InstallShortcutOperation.INSTALL_SHORTCUT_CREATE_ALL emptyState).systemDesktop
      = some (defaultShortcutProperties testDistribution kChromeExePath) ∧
    (CreateOrUpdateShortcuts testDistribution kChromeExePath defaultTestPrefs
        InstallShortcutLevel.ALL_USERS
        InstallShortcutOperation.INSTALL_SHORTCUT_CREATE_ALL emptyState).systemStartMenu
      = some (defaultShortcutProperties testDistribution kChromeExePath) ∧
    (CreateOrUpdateShortcuts testDistribution kChromeExePath defaultTestPrefs
        InstallShortcutLevel.ALL_USERS
        InstallShortcutOperation.INSTALL_SHORTCUT_CREATE_ALL emptyState).userQuickLaunch
      = some (defaultShortcutProperties testDistribution kChromeExePath) ∧
    (CreateOrUpdateShortcuts testDistribution kChromeExePath defaultTestPrefs
        InstallShortcutLevel.ALL_USERS
        InstallShortcutOperation.INSTALL_SHORTCUT_CREATE_ALL emptyState).userDesktop
      = emptyState.userDesktop :=
  claim_C6 testDistribution kChromeExePath defaultTestPrefs emptyState rfl rfl

/-- C7: each opt-out flag suppresses first-creation only for its own location
under CREATE_ALL: with the desktop opt-out set, the desktop stays absent while
quick-launch and start-menu-root shortcuts are created; with the quick-launch
opt-out set, only the quick-launch shortcut stays absent. -/
theorem claim_C7 (dist : Distribution) (exe : WinPath) (st st2 : ShortcutState)
    (hdesk : st.userDesktop = none) (hql : st2.userQuickLaunch = none) :
    (CreateOrUpdateShortcuts dist exe ⟨true, false⟩ InstallShortcutLevel.CURRENT_USER
        InstallShortcutOperation.INSTALL_SHORTCUT_CREATE_ALL st).userDesktop = none ∧
    (CreateOrUpdateShortcuts dist exe ⟨true, false⟩ InstallShortcutLevel.CURRENT_USER
        InstallShortcutOperation.INSTALL_SHORTCUT_CREATE_ALL st).userQuickLaunch
      = some (defaultShortcutProperties dist exe) ∧
    (CreateOrUpdateShortcuts dist exe ⟨true, false⟩ InstallShortcutLevel.CURRENT_USER
        InstallShortcutOperation.INSTALL_SHORTCUT_CREATE_ALL st).userStartMenu
      = some (defaultShortcutProperties dist exe) ∧
    (CreateOrUpdateShortcuts dist exe ⟨false, true⟩ InstallShortcutLevel.CURRENT_USER
        InstallShortcutOperation.INSTALL_SHORTCUT_CREATE_ALL st2).userDesktop
      = some (defaultShortcutProperties dist exe) ∧
    (CreateOrUpdateShortcuts dist exe ⟨false, true⟩ InstallShortcutLevel.CURRENT_USER
        InstallShortcutOperation.INSTALL_SHORTCUT_CREATE_ALL st2).userQuickLaunch
      = none ∧
    (CreateOrUpdateShortcuts dist exe ⟨false, true⟩ InstallShortcutLevel.CURRENT_USER
        InstallShortcutOperation.INSTALL_SHORTCUT_CREATE_ALL st2).userStartMenu
      = some (defaultShortcutProperties dist exe) := by
  simp [CreateOrUpdateShortcuts, applyShortcutOps, migrateStartMenus, applyOp,
    hdesk, hql]

/-- Witness for C7: instantiated on the concrete test fixture and the empty
state. -/
theorem claim_C7_witness :
    (CreateOrUpdateShortcuts testDistribution kChromeExePath ⟨true, false⟩
        InstallShortcutLevel.CURRENT_USER
        InstallShortcutOperation.INSTALL_SHORTCUT_CREATE_ALL emptyState).userDesktop
      = none ∧
    (CreateOrUpdateShortcuts testDistribution kChromeExePath ⟨true, false⟩
        InstallShortcutLevel.CURRENT_USER
        InstallShortcutOperation.INSTALL_SHORTCUT_CREATE_ALL emptyState).userQuickLaunch
      = some (defaultShortcutProperties testDistribution kChromeExePath) ∧
    (CreateOrUpdateShortcuts testDistribution kChromeExePath ⟨true, false⟩
        InstallShortcutLevel.CURRENT_USER
        InstallShortcutOperation.INSTALL_SHORTCUT_CREATE_ALL emptyState).userStartMenu
      = some (defaultShortcutProperties testDistribution kChromeExePath) ∧
    (CreateOrUpdateShortcuts testDistribution kChromeExePath ⟨false, true⟩
        InstallShortcutLevel.CURRENT_USER
        InstallShortcutOperation.INSTALL_SHORTCUT_CREATE_ALL emptyState).userDesktop
      = some (defaultShortcutProperties testDistribution kChromeExePath) ∧
    (CreateOrUpdateShortcuts testDistribution kChromeExePath ⟨false, true⟩
        InstallShortcutLevel.CURRENT_USER
        InstallShortcutOperation.INSTALL_SHORTCUT_CREATE_ALL emptyState).userQuickLaunch
      = none ∧
    (CreateOrUpdateShortcuts testDistribution kChromeExePath ⟨false, true⟩
        InstallShortcutLevel.CURRENT_USER
        InstallShortcutOperation.INSTALL_SHORTCUT_CREATE_ALL emptyState).userStartMenu
      = some (defaultShortcutProperties testDistribution kChromeExePath) :=
  claim_C7 testDistribution kChromeExePath emptyState emptyState rfl rfl

end Installer
